import Mathlib

/-! Alloy: label computation, argument config nodes, otelcol argument validation.

Shallow embedding of

* `internal/converter/internal/otelcolconvert/converter.go`
  (`State.alloyLabelForComponent`),
* `internal/runtime/internal/controller/node_config_argument.go`
  (`ArgumentConfigNode`),
* `internal/component/otelcol/config_queue.go` (`QueueArguments`),
* `internal/component/otelcol/connector/servicegraph/servicegraph.go`
  (`StoreConfig`, `Arguments`).

Go strings are Lean strings, Go `int` and `time.Duration` are `Int` (the code
only compares them with zero and builds them from constants far inside the
64-bit range, so no arithmetic can overflow), a nil-able pointer receiver is an
`Option`, a panic is `Except.error`.
-/

namespace Alloy

/-! ## Go errors and the `strings` helpers used by the sources -/

/-- A Go `error` value as built by `fmt.Errorf`: without a `%w` verb the result
is a plain message; with `%w` it carries the formatted message and the wrapped
error. -/
inductive GoError where
  | errorString (msg : String)
  | wrapError (msg : String) (err : GoError)
  deriving DecidableEq, Repr

/-- Go `err.Error()`. -/
def GoError.Error : GoError → String
  | .errorString msg => msg
  | .wrapError msg _ => msg

/-- Go `errors.Unwrap(err)`. -/
def GoError.Unwrap : GoError → Option GoError
  | .errorString _ => none
  | .wrapError _ err => some err

/-- Go `fmt.Errorf(format)` for a format string without verbs. -/
def fmtErrorf (msg : String) : GoError := .errorString msg

/-- Go `fmt.Errorf(pfx + "%w", err)`: the message is the prefix followed by the
message of `err`, and `err` is wrapped. -/
def fmtErrorfWrap (pfx : String) (err : GoError) : GoError :=
  .wrapError (pfx ++ err.Error) err

/-- Go `strings.Join(elems, sep)`. -/
def stringsJoin : List String → String → String
  | [], _ => ""
  | [e], _ => e
  | e :: f :: es, sep => e ++ sep ++ stringsJoin (f :: es) sep

/-- Splitting of a character sequence at every occurrence of `sep`: the
fragment before the first `sep`, then the split of what follows it; a sequence
without `sep` (also the empty one) is a single fragment. -/
def splitChars (sep : Char) : List Char → List (List Char)
  | [] => [[]]
  | c :: cs =>
    if c = sep then [] :: splitChars sep cs
    else
      match splitChars sep cs with
      | [] => [[c]]
      | x :: xs => (c :: x) :: xs

/-- Go `strings.Split(s, sep)` for a separator of one character (the sources
only split at "."). -/
def stringsSplit (s : String) (sep : Char) : List String :=
  (splitChars sep s.data).map String.mk

/-! ## otelcolconvert: component labels -/

namespace otelcolconvert

/-- The part of `componentstatus.InstanceID` read by the label computation:
`c.ComponentID().Name()`. -/
structure InstanceID where
  componentName : String
  deriving DecidableEq, Repr

/-- Go `groupedInstanceID`: an instance ID together with the name of the
pipeline group where the component is referenced. -/
structure groupedInstanceID where
  instanceID : InstanceID
  groupName : String
  deriving DecidableEq, Repr

/-- The fields of the conversion `State` read by the label computation. -/
structure State where
  componentID : InstanceID
  groupName : String
  componentLabelPrefix : String
  deriving DecidableEq, Repr

/-- The constant `defaultLabel` of `alloyLabelForComponent`. -/
def defaultLabel : String := "default"

/-- The body of `State.alloyLabelForComponent` up to (not including) the call
of the identifier sanitizer: the value of the local `unsanitizedLabel` at the
`return`. -/
def unsanitizedLabel (state : State) (c : groupedInstanceID) : String :=
  let groupName := c.groupName
  let componentName := c.instanceID.componentName
  let unsanitizedLabel := state.componentLabelPrefix
  let unsanitizedLabel :=
    if unsanitizedLabel ≠ "" then unsanitizedLabel ++ "_" else unsanitizedLabel
  if groupName = "" ∧ componentName = "" then
    unsanitizedLabel ++ defaultLabel
  else
    let groupName := if groupName = "" then defaultLabel else groupName
    let componentName := if componentName = "" then defaultLabel else componentName
    unsanitizedLabel ++ (groupName ++ "_" ++ componentName)

/-- Go `State.alloyLabelForComponent`; `common.SanitizeIdentifierPanics` is the
parameter `sanitize`. -/
def alloyLabelForComponent (sanitize : String → String) (state : State)
    (c : groupedInstanceID) : String :=
  sanitize (unsanitizedLabel state c)

/-- Go `State.AlloyComponentLabel`: the label of the component being converted,
in the current pipeline group. -/
def AlloyComponentLabel (sanitize : String → String) (state : State) : String :=
  alloyLabelForComponent sanitize state
    { instanceID := state.componentID, groupName := state.groupName }

end otelcolconvert

/-! ## controller: argument config nodes -/

namespace controller

/-- Go `ast.BlockStmt`: name path, label and body (source positions left out).
The type of bodies is the parameter `β`. -/
structure BlockStmt (β : Type) where
  Name : List String
  Label : String
  Body : β
  deriving DecidableEq, Repr

/-- Go `ComponentID`: the fragments of a period-delimited component name. -/
abbrev ComponentID := List String

/-- Modelled from the spec: `BlockComponentID` (declared in the controller
package, in a file of its own): the identity of a block is its name path
followed by its optional label, the label being left out when it is empty. -/
def BlockComponentID {β : Type} (b : BlockStmt β) : ComponentID :=
  if b.Label ≠ "" then b.Name ++ [b.Label] else b.Name

/-- Modelled from the spec: `ComponentID.String` (declared in the controller
package, in a file of its own): the dotted path, fragments joined
with ".". -/
def ComponentIDString (id : ComponentID) : String :=
  stringsJoin id "."

/-- Modelled from the spec: `ComponentID.Equals` (declared in the controller
package, in a file of its own): same length and equal fragments at every
position. -/
def ComponentIDEquals : ComponentID → ComponentID → Bool
  | [], [] => true
  | a :: as, b :: bs => if a ≠ b then false else ComponentIDEquals as bs
  | _, _ => false

/-- Modelled from the spec: `ast.BlockStmt.GetBlockName` (declared in the
syntax package, in a file of its own): the name as a dotted path. -/
def GetBlockName {β : Type} (b : BlockStmt β) : String :=
  stringsJoin b.Name "."

/-- Go `argument.Arguments`, the fields read by the node: the `Optional` flag
and the `Default` value (a Go `any`, `none` being nil). -/
structure Arguments (ν : Type) where
  Optional : Bool
  Default : Option ν
  deriving DecidableEq, Repr

/-- Go `*vm.Evaluator`: holds the body it was made from. -/
structure Evaluator (β : Type) where
  node : β
  deriving DecidableEq, Repr

/-- Go `vm.New(body)`. -/
def vmNew {β : Type} (body : β) : Evaluator β := ⟨body⟩

/-- Go `ArgumentConfigNode` (the mutex left out: calls are taken one at a
time). -/
structure ArgumentConfigNode (β ν : Type) where
  label : String
  nodeID : String
  componentName : String
  block : BlockStmt β
  eval : Evaluator β
  defaultValue : Option ν
  optional : Bool
  deriving DecidableEq, Repr

/-- Go `NewArgumentConfigNode(block, globals)`; `globals` is not read. The
fields not listed in the literal have their zero value. -/
def NewArgumentConfigNode {β ν : Type} (block : BlockStmt β) : ArgumentConfigNode β ν :=
  { label := block.Label
    nodeID := ComponentIDString (BlockComponentID block)
    componentName := GetBlockName block
    block := block
    eval := vmNew block.Body
    defaultValue := none
    optional := false }

/-- Go `ArgumentConfigNode.Evaluate(scope)`: the node after the call and the
returned error (`none` is nil). `vmEvaluate ev scope` is
`ev.Evaluate(scope, &args)` on a zero-valued `args`: the decode error, or the
decoded arguments. -/
def ArgumentConfigNode.Evaluate {β σ ν : Type}
    (vmEvaluate : Evaluator β → σ → Except GoError (Arguments ν))
    (cn : ArgumentConfigNode β ν) (scope : σ) : ArgumentConfigNode β ν × Option GoError :=
  match vmEvaluate cn.eval scope with
  | .error err => (cn, some (fmtErrorfWrap "decoding configuration: " err))
  | .ok args => ({ cn with defaultValue := args.Default, optional := args.Optional }, none)

/-- Go `ArgumentConfigNode.Optional()`. -/
def ArgumentConfigNode.Optional {β ν : Type} (cn : ArgumentConfigNode β ν) : Bool :=
  cn.optional

/-- Go `ArgumentConfigNode.Default()`. -/
def ArgumentConfigNode.Default {β ν : Type} (cn : ArgumentConfigNode β ν) : Option ν :=
  cn.defaultValue

/-- Go `ArgumentConfigNode.Label()`. -/
def ArgumentConfigNode.Label {β ν : Type} (cn : ArgumentConfigNode β ν) : String :=
  cn.label

/-- Go `ArgumentConfigNode.Block()`. -/
def ArgumentConfigNode.Block {β ν : Type} (cn : ArgumentConfigNode β ν) : BlockStmt β :=
  cn.block

/-- Go `ArgumentConfigNode.NodeID()`. -/
def ArgumentConfigNode.NodeID {β ν : Type} (cn : ArgumentConfigNode β ν) : String :=
  cn.nodeID

/-- Go `ArgumentConfigNode.UpdateBlock(b)`: `Except.error` carries the panic
message, `Except.ok` the node after the call. -/
def ArgumentConfigNode.UpdateBlock {β ν : Type} (cn : ArgumentConfigNode β ν)
    (b : BlockStmt β) : Except String (ArgumentConfigNode β ν) :=
  if !ComponentIDEquals (BlockComponentID b) (stringsSplit cn.nodeID '.') then
    .error "UpdateBlock called with an Alloy block with a different ID"
  else
    .ok { cn with block := b, eval := vmNew b.Body }

/-- One call on a node: `Evaluate(scope)` or `UpdateBlock(b)`. -/
inductive Call (β σ : Type) where
  | evaluate (scope : σ)
  | updateBlock (b : BlockStmt β)
  deriving DecidableEq, Repr

/-- The node after one call; `Except.error` when the call panics. The error
returned by `Evaluate` does not stop the sequence. -/
def step {β σ ν : Type} (vmEvaluate : Evaluator β → σ → Except GoError (Arguments ν))
    (cn : ArgumentConfigNode β ν) : Call β σ → Except String (ArgumentConfigNode β ν)
  | .evaluate scope => .ok (cn.Evaluate vmEvaluate scope).1
  | .updateBlock b => cn.UpdateBlock b

/-- The node after a finite sequence of calls, made in order; `Except.error`
as soon as one of them panics. -/
def run {β σ ν : Type} (vmEvaluate : Evaluator β → σ → Except GoError (Arguments ν)) :
    List (Call β σ) → ArgumentConfigNode β ν → Except String (ArgumentConfigNode β ν)
  | [], cn => .ok cn
  | call :: calls, cn =>
    match step vmEvaluate cn call with
    | .error msg => .error msg
    | .ok cn' => run vmEvaluate calls cn'

/-! ### A concrete evaluator and concrete nodes -/

/-- An evaluator over numeric bodies: body 0 fails to decode, any other body n
decodes to an optional argument whose default is n. -/
def exampleEvaluate (ev : Evaluator Nat) (_scope : Unit) : Except GoError (Arguments Nat) :=
  if ev.node = 0 then .error (fmtErrorf "missing attribute") else .ok ⟨true, some ev.node⟩

/-- The block `argument "input"` with the given body. -/
def exampleBlock (body : Nat) : BlockStmt Nat :=
  { Name := ["argument"], Label := "input", Body := body }

/-- The node made from `exampleBlock 7` after a successful `Evaluate` followed
by `UpdateBlock (exampleBlock 0)`: it still holds the value decoded from
body 7. -/
def exampleStaleNode : ArgumentConfigNode Nat Nat :=
  { label := "input"
    nodeID := "argument.input"
    componentName := "argument"
    block := exampleBlock 0
    eval := vmNew 0
    defaultValue := some 7
    optional := true }

/-- A block whose label contains a period. -/
def dottedBlock : BlockStmt Unit :=
  { Name := ["a"], Label := "b.c", Body := () }

/-- A block with another name path and label than `dottedBlock`, and the same
dotted form. -/
def undottedBlock : BlockStmt Unit :=
  { Name := ["a", "b"], Label := "c", Body := () }

end controller

/-! ## otelcol: queue arguments and the servicegraph connector -/

namespace otelcol

/-- Go `QueueArguments`. -/
structure QueueArguments where
  Enabled : Bool
  NumConsumers : Int
  QueueSize : Int
  Blocking : Bool
  deriving DecidableEq, Repr

/-- Go `(*QueueArguments).SetToDefault`: the value stored through the receiver;
the argument is the value it held before. `Blocking` is not listed in the
literal and has its zero value. -/
def QueueArguments.SetToDefault (_args : QueueArguments) : QueueArguments :=
  { Enabled := true
    NumConsumers := 10
    QueueSize := 1000
    Blocking := false }

/-- Go `(*QueueArguments).Validate`: `none` as argument is the nil receiver,
`none` as result is the nil error. -/
def QueueArguments.Validate (args : Option QueueArguments) : Option GoError :=
  match args with
  | none => none
  | some a =>
    if !a.Enabled then none
    else if a.QueueSize ≤ 0 then some (fmtErrorf "queue_size must be greater than zero")
    else none

namespace servicegraph

/-- Go `time.Millisecond`, in nanoseconds. -/
def Millisecond : Int := 1000000

/-- Go `time.Second`, in nanoseconds. -/
def Second : Int := 1000 * Millisecond

/-- Go `time.Minute`, in nanoseconds. -/
def Minute : Int := 60 * Second

/-- Go `StoreConfig` of the servicegraph connector. -/
structure StoreConfig where
  MaxItems : Int
  TTL : Int
  deriving DecidableEq, Repr

/-- Go `(*StoreConfig).SetToDefault`: the value stored through the receiver;
the argument is the value it held before. -/
def StoreConfig.SetToDefault (_sc : StoreConfig) : StoreConfig :=
  { MaxItems := 1000
    TTL := 2 * Second }

/-- Go `Arguments` of `otelcol.connector.servicegraph`. The types of the
`Output` and `DebugMetrics` blocks are the parameters `ω` and `δ`. -/
structure Arguments (ω δ : Type) where
  LatencyHistogramBuckets : List Int
  Dimensions : List String
  Store : StoreConfig
  CacheLoop : Int
  StoreExpirationLoop : Int
  MetricsFlushInterval : Int
  DatabaseNameAttribute : String
  DatabaseNameAttributes : List String
  Output : Option ω
  DebugMetrics : δ

/-- Go `(*Arguments).Validate`; `none` is the nil error. -/
def Arguments.Validate {ω δ : Type} (args : Arguments ω δ) : Option GoError :=
  if args.CacheLoop ≤ 0 then
    some (fmtErrorf "cache_loop must be greater than 0")
  else if args.StoreExpirationLoop ≤ 0 then
    some (fmtErrorf "store_expiration_loop must be greater than 0")
  else if args.Store.MaxItems ≤ 0 then
    some (fmtErrorf "store.max_items must be greater than 0")
  else if args.Store.TTL ≤ 0 then
    some (fmtErrorf "store.ttl must be greater than 0")
  else
    none

/-- The upstream `servicegraphconnector.StoreConfig`, the target of the `Store`
field of `Convert`. -/
structure servicegraphconnector.StoreConfig where
  MaxItems : Int
  TTL : Int
  deriving DecidableEq, Repr

/-- The upstream `servicegraphconnector.Config`, with the fields that the
literal in `Convert` names: `MetricsExporter` (named in a comment, never
assigned) and the fields it assigns. `MetricsFlushInterval` is a
`*time.Duration`: `none` is the nil pointer, `some d` a pointer to `d`. -/
structure servicegraphconnector.Config where
  MetricsExporter : String
  LatencyHistogramBuckets : List Int
  Dimensions : List String
  Store : servicegraphconnector.StoreConfig
  CacheLoop : Int
  StoreExpirationLoop : Int
  MetricsFlushInterval : Option Int
  DatabaseNameAttribute : String
  DatabaseNameAttributes : List String
  deriving DecidableEq, Repr

/-- Go `(*Arguments).SetToDefault`: the value stored through the receiver; the
last argument is the value it held before. The fields not listed in the
literal (`Store`, `DatabaseNameAttribute`, `Output`, `DebugMetrics`) have
their zero value, then `Store` and `DebugMetrics` are set to their defaults.
`DebugMetricsArguments` and its `SetToDefault` belong to another package: its
zero value and its defaulting are the parameters `zeroDebugMetrics` and
`debugMetricsSetToDefault`. -/
def Arguments.SetToDefault {ω δ : Type} (zeroDebugMetrics : δ)
    (debugMetricsSetToDefault : δ → δ) (_args : Arguments ω δ) : Arguments ω δ :=
  let args : Arguments ω δ :=
    { LatencyHistogramBuckets :=
        [ 2 * Millisecond
        , 4 * Millisecond
        , 6 * Millisecond
        , 8 * Millisecond
        , 10 * Millisecond
        , 50 * Millisecond
        , 100 * Millisecond
        , 200 * Millisecond
        , 400 * Millisecond
        , 800 * Millisecond
        , 1 * Second
        , 1400 * Millisecond
        , 2 * Second
        , 5 * Second
        , 10 * Second
        , 15 * Second ]
      Dimensions := []
      Store := { MaxItems := 0, TTL := 0 }
      CacheLoop := 1 * Minute
      StoreExpirationLoop := 2 * Second
      MetricsFlushInterval := 60 * Second
      DatabaseNameAttribute := ""
      DatabaseNameAttributes := ["db.name"]
      Output := none
      DebugMetrics := zeroDebugMetrics }
  let args := { args with Store := args.Store.SetToDefault }
  { args with DebugMetrics := debugMetricsSetToDefault args.DebugMetrics }

/-- Go `Arguments.Convert`: the config behind the returned pointer and the
returned error (`none` is nil). `MetricsExporter` is not in the literal and
has its zero value. -/
def Arguments.Convert {ω δ : Type} (args : Arguments ω δ) :
    servicegraphconnector.Config × Option GoError :=
  ({ MetricsExporter := ""
     LatencyHistogramBuckets := args.LatencyHistogramBuckets
     Dimensions := args.Dimensions
     Store :=
       { MaxItems := args.Store.MaxItems
         TTL := args.Store.TTL }
     CacheLoop := args.CacheLoop
     StoreExpirationLoop := args.StoreExpirationLoop
     MetricsFlushInterval := some args.MetricsFlushInterval
     DatabaseNameAttribute := args.DatabaseNameAttribute
     DatabaseNameAttributes := args.DatabaseNameAttributes },
   none)

end servicegraph

end otelcol

/-! ## Theorems -/

namespace otelcolconvert

/-- C1 (the code breaks the claim): for every label prefix and every sanitizer, the
grouped instance IDs (group "default", component "x") and (group "",
component "x") have different group names, yet the unsanitized label built for
them is the same string, and so is the label returned by
alloyLabelForComponent; likewise (group "a_b", component "c") and (group "a",
component "b_c"). The label is not injective in (group name, component
name). -/
theorem alloyLabelForComponent_collision (sanitize : String → String) (state : State) :
    (({ instanceID := ⟨"x"⟩, groupName := "default" } : groupedInstanceID).groupName
        ≠ ({ instanceID := ⟨"x"⟩, groupName := "" } : groupedInstanceID).groupName
      ∧ unsanitizedLabel state { instanceID := ⟨"x"⟩, groupName := "default" }
        = unsanitizedLabel state { instanceID := ⟨"x"⟩, groupName := "" }
      ∧ alloyLabelForComponent sanitize state { instanceID := ⟨"x"⟩, groupName := "default" }
        = alloyLabelForComponent sanitize state { instanceID := ⟨"x"⟩, groupName := "" })
    ∧ (({ instanceID := ⟨"c"⟩, groupName := "a_b" } : groupedInstanceID).groupName
        ≠ ({ instanceID := ⟨"b_c"⟩, groupName := "a" } : groupedInstanceID).groupName
      ∧ unsanitizedLabel state { instanceID := ⟨"c"⟩, groupName := "a_b" }
        = unsanitizedLabel state { instanceID := ⟨"b_c"⟩, groupName := "a" }
      ∧ alloyLabelForComponent sanitize state { instanceID := ⟨"c"⟩, groupName := "a_b" }
        = alloyLabelForComponent sanitize state { instanceID := ⟨"b_c"⟩, groupName := "a" }) := by
  have h₁ : unsanitizedLabel state { instanceID := ⟨"x"⟩, groupName := "default" }
      = unsanitizedLabel state { instanceID := ⟨"x"⟩, groupName := "" } := by
    have e : defaultLabel ++ "_" ++ "x" = "default_x" := by decide
    simp [unsanitizedLabel, e]
  have h₂ : unsanitizedLabel state { instanceID := ⟨"c"⟩, groupName := "a_b" }
      = unsanitizedLabel state { instanceID := ⟨"b_c"⟩, groupName := "a" } := by
    simp [unsanitizedLabel]
  refine ⟨⟨by decide, h₁, ?_⟩, ⟨by decide, h₂, ?_⟩⟩
  · simp only [alloyLabelForComponent, h₁]
  · simp only [alloyLabelForComponent, h₂]

/-- C2: for every label prefix p, group name g and component name c, the
unsanitized label equals P ++ L, where P is empty when p is empty and
p ++ "_" otherwise, and L is "default" when g and c are both empty and
otherwise g' ++ "_" ++ c', with the empty string replaced by "default" in g'
and c'. -/
theorem unsanitizedLabel_eq_prefix_append (cid : InstanceID) (gn p g c : String) :
    unsanitizedLabel { componentID := cid, groupName := gn, componentLabelPrefix := p }
        { instanceID := ⟨c⟩, groupName := g }
      = (if p = "" then "" else p ++ "_")
        ++ (if g = "" ∧ c = "" then "default"
            else (if g = "" then "default" else g) ++ "_"
              ++ (if c = "" then "default" else c)) := by
  unfold unsanitizedLabel defaultLabel
  by_cases hp : p = "" <;> by_cases hg : g = "" <;> by_cases hc : c = "" <;>
    simp [hp, hg, hc]

end otelcolconvert

/-! ### Facts about the string helpers -/

theorem splitChars_of_not_mem (sep : Char) (cs : List Char) (h : sep ∉ cs) :
    splitChars sep cs = [cs] := by
  induction cs with
  | nil => rfl
  | cons c cs ih =>
    have hc : c ≠ sep := fun e => h (by simp [e])
    have hcs : sep ∉ cs := fun m => h (List.mem_cons_of_mem _ m)
    simp [splitChars, hc, ih hcs]

theorem splitChars_append_sep (sep : Char) (x rest : List Char) (h : sep ∉ x) :
    splitChars sep (x ++ sep :: rest) = x :: splitChars sep rest := by
  induction x with
  | nil => simp [splitChars]
  | cons c x ih =>
    have hc : c ≠ sep := fun e => h (by simp [e])
    have hx : sep ∉ x := fun m => h (List.mem_cons_of_mem _ m)
    simp [splitChars, hc, ih hx]

theorem stringsSplit_stringsJoin_cons (e : String) (es : List String)
    (h : ∀ f ∈ e :: es, '.' ∉ f.data) :
    stringsSplit (stringsJoin (e :: es) ".") '.' = e :: es := by
  induction es generalizing e with
  | nil =>
    have he : '.' ∉ e.data := h e (by simp)
    simp [stringsJoin, stringsSplit, splitChars_of_not_mem _ _ he]
  | cons f es ih =>
    have he : '.' ∉ e.data := h e (by simp)
    have hrest : ∀ g ∈ f :: es, '.' ∉ g.data := fun g hg => h g (List.mem_cons_of_mem _ hg)
    have hdata : (stringsJoin (e :: f :: es) ".").data
        = e.data ++ '.' :: (stringsJoin (f :: es) ".").data := by
      simp [stringsJoin, String.data_append]
    have ih' := ih f hrest
    unfold stringsSplit at ih' ⊢
    rw [hdata, splitChars_append_sep _ _ _ he, List.map_cons, ih']

/-- Splitting the dotted form of a non-empty list of fragments, none of which
contains a period, gives the fragments back. -/
theorem stringsSplit_stringsJoin (id : List String) (hne : id ≠ [])
    (h : ∀ f ∈ id, '.' ∉ f.data) :
    stringsSplit (stringsJoin id ".") '.' = id := by
  cases id with
  | nil => exact absurd rfl hne
  | cons e es => exact stringsSplit_stringsJoin_cons e es h

namespace controller

theorem ComponentIDEquals_iff (a b : ComponentID) : ComponentIDEquals a b = true ↔ a = b := by
  induction a generalizing b with
  | nil => cases b <;> simp [ComponentIDEquals]
  | cons x xs ih =>
    cases b with
    | nil => simp [ComponentIDEquals]
    | cons y ys =>
      by_cases hxy : x = y
      · simp [ComponentIDEquals, hxy, ih]
      · simp [ComponentIDEquals, hxy]

/-- A call changes neither the node ID nor the label. -/
theorem step_identity {β σ ν : Type}
    (vmEvaluate : Evaluator β → σ → Except GoError (Arguments ν))
    (cn cn' : ArgumentConfigNode β ν) (call : Call β σ)
    (h : step vmEvaluate cn call = .ok cn') :
    cn'.nodeID = cn.nodeID ∧ cn'.label = cn.label := by
  cases call with
  | evaluate scope =>
    simp only [step, ArgumentConfigNode.Evaluate, Except.ok.injEq] at h
    subst h
    cases vmEvaluate cn.eval scope <;> simp
  | updateBlock b =>
    simp only [step, ArgumentConfigNode.UpdateBlock] at h
    split at h
    · cases h
    · cases h; simp

/-- A sequence of calls changes neither the node ID nor the label. -/
theorem run_identity {β σ ν : Type}
    (vmEvaluate : Evaluator β → σ → Except GoError (Arguments ν))
    (calls : List (Call β σ)) (cn cn' : ArgumentConfigNode β ν)
    (h : run vmEvaluate calls cn = .ok cn') :
    cn'.nodeID = cn.nodeID ∧ cn'.label = cn.label := by
  induction calls generalizing cn with
  | nil =>
    simp only [run, Except.ok.injEq] at h
    subst h; exact ⟨rfl, rfl⟩
  | cons call calls ih =>
    simp only [run] at h
    cases hs : step vmEvaluate cn call with
    | error msg => rw [hs] at h; cases h
    | ok cn₁ =>
      rw [hs] at h
      have h₁ := step_identity vmEvaluate cn cn₁ call hs
      have h₂ := ih cn₁ h
      exact ⟨h₂.1.trans h₁.1, h₂.2.trans h₁.2⟩

/-! ### ArgumentConfigNode -/

/-- C3: when evaluating the node's block fails with a decode error, Evaluate
returns a non-nil error whose message is "decoding configuration: " followed by
the decode error's message and which wraps the decode error, and Default(),
Optional(), Block(), Label() and NodeID() return the same values after the
call as before it. -/
theorem Evaluate_failure_keeps_value {β σ ν : Type}
    (vmEvaluate : Evaluator β → σ → Except GoError (Arguments ν))
    (cn : ArgumentConfigNode β ν) (scope : σ) (err : GoError)
    (h : vmEvaluate cn.eval scope = .error err) :
    (∃ e, (cn.Evaluate vmEvaluate scope).2 = some e
        ∧ e.Error = "decoding configuration: " ++ err.Error
        ∧ e.Unwrap = some err)
      ∧ (cn.Evaluate vmEvaluate scope).1.Default = cn.Default
      ∧ (cn.Evaluate vmEvaluate scope).1.Optional = cn.Optional
      ∧ (cn.Evaluate vmEvaluate scope).1.Block = cn.Block
      ∧ (cn.Evaluate vmEvaluate scope).1.Label = cn.Label
      ∧ (cn.Evaluate vmEvaluate scope).1.NodeID = cn.NodeID := by
  have hE : cn.Evaluate vmEvaluate scope
      = (cn, some (fmtErrorfWrap "decoding configuration: " err)) := by
    simp only [ArgumentConfigNode.Evaluate, h]
  rw [hE]
  exact ⟨⟨_, rfl, rfl, rfl⟩, rfl, rfl, rfl, rfl, rfl⟩

/-- Witness of C3: the stale node (default 7, optional) holds a block whose
body does not decode; Evaluate returns the wrapped error and the node keeps
default 7. -/
theorem Evaluate_failure_keeps_value_witness :
    exampleEvaluate exampleStaleNode.eval () = .error (fmtErrorf "missing attribute")
      ∧ ((∃ e, (exampleStaleNode.Evaluate exampleEvaluate ()).2 = some e
            ∧ e.Error = "decoding configuration: " ++ (fmtErrorf "missing attribute").Error
            ∧ e.Unwrap = some (fmtErrorf "missing attribute"))
        ∧ (exampleStaleNode.Evaluate exampleEvaluate ()).1.Default = exampleStaleNode.Default
        ∧ (exampleStaleNode.Evaluate exampleEvaluate ()).1.Optional = exampleStaleNode.Optional
        ∧ (exampleStaleNode.Evaluate exampleEvaluate ()).1.Block = exampleStaleNode.Block
        ∧ (exampleStaleNode.Evaluate exampleEvaluate ()).1.Label = exampleStaleNode.Label
        ∧ (exampleStaleNode.Evaluate exampleEvaluate ()).1.NodeID = exampleStaleNode.NodeID) :=
  ⟨rfl, Evaluate_failure_keeps_value exampleEvaluate exampleStaleNode ()
    (fmtErrorf "missing attribute") rfl⟩

/-- C4 (counterexample to the claim as stated): a node created from the block with
name path a and label "b.c" panics on UpdateBlock with that very block, and
accepts the block with name path a.b and label "c", whose component ID is a
different one. -/
theorem UpdateBlock_dotted_label :
    (NewArgumentConfigNode (ν := Unit) dottedBlock).UpdateBlock dottedBlock
        = .error "UpdateBlock called with an Alloy block with a different ID"
      ∧ BlockComponentID undottedBlock ≠ BlockComponentID dottedBlock
      ∧ (NewArgumentConfigNode (ν := Unit) dottedBlock).UpdateBlock undottedBlock
        = .ok { NewArgumentConfigNode dottedBlock with
                  block := undottedBlock, eval := vmNew undottedBlock.Body } :=
  ⟨rfl, by decide, rfl⟩

/-- C4 (amended): let b0 be a block whose component ID is non-empty and has no
period inside any fragment. For a node created from b0, after any sequence of
calls, UpdateBlock(b) panics if and only if the component ID of b differs from
the component ID of b0; in particular the node accepts UpdateBlock(b0). -/
theorem UpdateBlock_panics_iff {β σ ν : Type}
    (vmEvaluate : Evaluator β → σ → Except GoError (Arguments ν))
    (b0 : BlockStmt β) (calls : List (Call β σ)) (cn : ArgumentConfigNode β ν)
    (b : BlockStmt β)
    (hne : BlockComponentID b0 ≠ [])
    (hdot : ∀ f ∈ BlockComponentID b0, '.' ∉ f.data)
    (hrun : run vmEvaluate calls (NewArgumentConfigNode b0) = .ok cn) :
    ((∃ msg, cn.UpdateBlock b = .error msg) ↔ BlockComponentID b ≠ BlockComponentID b0)
      ∧ (∃ cn', cn.UpdateBlock b0 = .ok cn') := by
  have hid : cn.nodeID = ComponentIDString (BlockComponentID b0) :=
    (run_identity vmEvaluate calls _ cn hrun).1
  have hsplit : stringsSplit cn.nodeID '.' = BlockComponentID b0 := by
    rw [hid]
    exact stringsSplit_stringsJoin _ hne hdot
  have hself : ComponentIDEquals (BlockComponentID b0) (BlockComponentID b0) = true :=
    (ComponentIDEquals_iff _ _).2 rfl
  refine ⟨?_, ?_⟩
  · unfold ArgumentConfigNode.UpdateBlock
    rw [hsplit]
    by_cases heq : BlockComponentID b = BlockComponentID b0
    · simp [heq, hself]
    · have hfalse : ComponentIDEquals (BlockComponentID b) (BlockComponentID b0) = false := by
        cases hc : ComponentIDEquals (BlockComponentID b) (BlockComponentID b0) with
        | false => rfl
        | true => exact absurd ((ComponentIDEquals_iff _ _).1 hc) heq
      simp [heq, hfalse]
  · unfold ArgumentConfigNode.UpdateBlock
    rw [hsplit]
    simp [hself]

/-- Witness of C4 (amended): the node made from argument "input", evaluated,
updated and evaluated again, panics on a block labelled "output". -/
theorem UpdateBlock_panics_iff_witness :
    BlockComponentID (exampleBlock 7) ≠ []
      ∧ (∀ f ∈ BlockComponentID (exampleBlock 7), '.' ∉ f.data)
      ∧ run exampleEvaluate
          [Call.evaluate (), Call.updateBlock (exampleBlock 0), Call.evaluate ()]
          (NewArgumentConfigNode (exampleBlock 7)) = .ok exampleStaleNode
      ∧ (((∃ msg, exampleStaleNode.UpdateBlock
              { Name := ["argument"], Label := "output", Body := 1 } = .error msg)
            ↔ BlockComponentID ({ Name := ["argument"], Label := "output", Body := 1 }
                : BlockStmt Nat) ≠ BlockComponentID (exampleBlock 7))
          ∧ (∃ cn', exampleStaleNode.UpdateBlock (exampleBlock 7) = .ok cn')) :=
  ⟨by decide, by decide, rfl,
    UpdateBlock_panics_iff exampleEvaluate (exampleBlock 7)
      [Call.evaluate (), Call.updateBlock (exampleBlock 0), Call.evaluate ()]
      exampleStaleNode { Name := ["argument"], Label := "output", Body := 1 }
      (by decide) (by decide) rfl⟩

/-- C5: for every node and every block b whose component ID is the node's
component ID (the fragments of its node ID), UpdateBlock(b) returns without
panicking, afterwards Block() returns b, and Default() and Optional() return
what they returned before the call. -/
theorem UpdateBlock_frame {β ν : Type} (cn : ArgumentConfigNode β ν) (b : BlockStmt β)
    (h : BlockComponentID b = stringsSplit cn.nodeID '.') :
    ∃ cn', cn.UpdateBlock b = .ok cn'
      ∧ cn'.Block = b
      ∧ cn'.Default = cn.Default
      ∧ cn'.Optional = cn.Optional := by
  have hEq : ComponentIDEquals (BlockComponentID b) (stringsSplit cn.nodeID '.') = true :=
    (ComponentIDEquals_iff _ _).2 h
  refine ⟨{ cn with block := b, eval := vmNew b.Body }, ?_, rfl, rfl, rfl⟩
  simp [ArgumentConfigNode.UpdateBlock, hEq]

/-- Witness of C5: the stale node takes the block argument "input" with
body 3 and keeps default 7. -/
theorem UpdateBlock_frame_witness :
    BlockComponentID (exampleBlock 3) = stringsSplit exampleStaleNode.nodeID '.'
      ∧ ∃ cn', exampleStaleNode.UpdateBlock (exampleBlock 3) = .ok cn'
          ∧ cn'.Block = exampleBlock 3
          ∧ cn'.Default = exampleStaleNode.Default
          ∧ cn'.Optional = exampleStaleNode.Optional :=
  ⟨by decide, UpdateBlock_frame exampleStaleNode (exampleBlock 3) (by decide)⟩

/-- C6: when evaluating the node's block succeeds with decoded arguments a,
Evaluate returns nil, afterwards Default() is a.Default and Optional() is
a.Optional, and Block() is unchanged. -/
theorem Evaluate_success_sets_value {β σ ν : Type}
    (vmEvaluate : Evaluator β → σ → Except GoError (Arguments ν))
    (cn : ArgumentConfigNode β ν) (scope : σ) (a : Arguments ν)
    (h : vmEvaluate cn.eval scope = .ok a) :
    (cn.Evaluate vmEvaluate scope).2 = none
      ∧ (cn.Evaluate vmEvaluate scope).1.Default = a.Default
      ∧ (cn.Evaluate vmEvaluate scope).1.Optional = a.Optional
      ∧ (cn.Evaluate vmEvaluate scope).1.Block = cn.Block := by
  have hE : cn.Evaluate vmEvaluate scope
      = ({ cn with defaultValue := a.Default, optional := a.Optional }, none) := by
    simp only [ArgumentConfigNode.Evaluate, h]
  rw [hE]
  exact ⟨rfl, rfl, rfl, rfl⟩

/-- Witness of C6: a fresh node over body 7 evaluates to default 7,
optional. -/
theorem Evaluate_success_sets_value_witness :
    exampleEvaluate (NewArgumentConfigNode (ν := Nat) (exampleBlock 7)).eval ()
        = .ok ⟨true, some 7⟩
      ∧ ((NewArgumentConfigNode (ν := Nat) (exampleBlock 7)).Evaluate exampleEvaluate ()).2 = none
      ∧ ((NewArgumentConfigNode (ν := Nat) (exampleBlock 7)).Evaluate exampleEvaluate ()).1.Default
          = (⟨true, some 7⟩ : Arguments Nat).Default
      ∧ ((NewArgumentConfigNode (ν := Nat) (exampleBlock 7)).Evaluate exampleEvaluate ()).1.Optional
          = (⟨true, some 7⟩ : Arguments Nat).Optional
      ∧ ((NewArgumentConfigNode (ν := Nat) (exampleBlock 7)).Evaluate exampleEvaluate ()).1.Block
          = (NewArgumentConfigNode (ν := Nat) (exampleBlock 7)).Block :=
  ⟨rfl, Evaluate_success_sets_value exampleEvaluate
    (NewArgumentConfigNode (exampleBlock 7)) () ⟨true, some 7⟩ rfl⟩

/-- C7: for a node created from block b0, after any finite sequence of
Evaluate calls (successful or failing) and non-panicking UpdateBlock calls,
NodeID() is the string form of the component ID of b0 and Label() is the
label of b0. -/
theorem identity_invariant {β σ ν : Type}
    (vmEvaluate : Evaluator β → σ → Except GoError (Arguments ν))
    (b0 : BlockStmt β) (calls : List (Call β σ)) (cn : ArgumentConfigNode β ν)
    (h : run vmEvaluate calls (NewArgumentConfigNode b0) = .ok cn) :
    cn.NodeID = ComponentIDString (BlockComponentID b0) ∧ cn.Label = b0.Label :=
  run_identity vmEvaluate calls (NewArgumentConfigNode b0) cn h

/-- Witness of C7: a successful Evaluate, an UpdateBlock to a body that does
not decode, and a failing Evaluate leave the identity of argument "input". -/
theorem identity_invariant_witness :
    run exampleEvaluate
        [Call.evaluate (), Call.updateBlock (exampleBlock 0), Call.evaluate ()]
        (NewArgumentConfigNode (exampleBlock 7)) = .ok exampleStaleNode
      ∧ exampleStaleNode.NodeID = ComponentIDString (BlockComponentID (exampleBlock 7))
      ∧ exampleStaleNode.Label = (exampleBlock 7).Label :=
  ⟨rfl, identity_invariant exampleEvaluate (exampleBlock 7)
    [Call.evaluate (), Call.updateBlock (exampleBlock 0), Call.evaluate ()]
    exampleStaleNode rfl⟩

end controller

/-! ### otelcol -/

namespace otelcol

/-- C8: QueueArguments.Validate returns an error if and only if the receiver is
non-nil, Enabled is true and QueueSize <= 0; the error then has the message
"queue_size must be greater than zero". A nil receiver and every disabled
queue, whatever its QueueSize and NumConsumers, validate successfully. -/
theorem QueueArguments_Validate_error_iff (args : Option QueueArguments) :
    ((∃ e, QueueArguments.Validate args = some e)
        ↔ ∃ a, args = some a ∧ a.Enabled = true ∧ a.QueueSize ≤ 0)
      ∧ (∀ e, QueueArguments.Validate args = some e
          → e.Error = "queue_size must be greater than zero")
      ∧ QueueArguments.Validate none = none
      ∧ (∀ (n q : Int) (bl : Bool), QueueArguments.Validate
          (some { Enabled := false, NumConsumers := n, QueueSize := q, Blocking := bl })
            = none) := by
  refine ⟨?_, ?_, rfl, ?_⟩
  · cases args with
    | none => simp [QueueArguments.Validate]
    | some a =>
      by_cases hE : a.Enabled = true <;> by_cases hQ : a.QueueSize ≤ 0 <;>
        simp [QueueArguments.Validate, hE, hQ]
  · intro e he
    cases args with
    | none => simp [QueueArguments.Validate] at he
    | some a =>
      by_cases hE : a.Enabled = true <;> by_cases hQ : a.QueueSize ≤ 0 <;>
        simp [QueueArguments.Validate, hE, hQ] at he
      subst he
      rfl
  · intro n q bl
    simp [QueueArguments.Validate]

namespace servicegraph

/-- C9: Arguments.Validate returns nil if and only if CacheLoop > 0,
StoreExpirationLoop > 0, Store.MaxItems > 0 and Store.TTL > 0; when it fails,
the error names the first violated field in the order cache_loop,
store_expiration_loop, store.max_items, store.ttl; and two Arguments values
that agree on these four fields validate to the same result. -/
theorem Arguments_Validate_spec {ω δ : Type} (args : Arguments ω δ) :
    (args.Validate = none
        ↔ 0 < args.CacheLoop ∧ 0 < args.StoreExpirationLoop
          ∧ 0 < args.Store.MaxItems ∧ 0 < args.Store.TTL)
      ∧ (args.CacheLoop ≤ 0
          → args.Validate = some (fmtErrorf "cache_loop must be greater than 0"))
      ∧ (0 < args.CacheLoop → args.StoreExpirationLoop ≤ 0
          → args.Validate = some (fmtErrorf "store_expiration_loop must be greater than 0"))
      ∧ (0 < args.CacheLoop → 0 < args.StoreExpirationLoop → args.Store.MaxItems ≤ 0
          → args.Validate = some (fmtErrorf "store.max_items must be greater than 0"))
      ∧ (0 < args.CacheLoop → 0 < args.StoreExpirationLoop → 0 < args.Store.MaxItems
          → args.Store.TTL ≤ 0
          → args.Validate = some (fmtErrorf "store.ttl must be greater than 0"))
      ∧ (∀ {ω' δ' : Type} (other : Arguments ω' δ'),
          other.CacheLoop = args.CacheLoop
          → other.StoreExpirationLoop = args.StoreExpirationLoop
          → other.Store.MaxItems = args.Store.MaxItems
          → other.Store.TTL = args.Store.TTL
          → other.Validate = args.Validate) := by
  refine ⟨?_, ?_, ?_, ?_, ?_, ?_⟩
  · unfold Arguments.Validate
    by_cases h₁ : args.CacheLoop ≤ 0
    · simp [h₁, not_lt.mpr h₁]
    by_cases h₂ : args.StoreExpirationLoop ≤ 0
    · simp [h₁, h₂, not_lt.mpr h₂]
    by_cases h₃ : args.Store.MaxItems ≤ 0
    · simp [h₁, h₂, h₃, not_lt.mpr h₃]
    by_cases h₄ : args.Store.TTL ≤ 0
    · simp [h₁, h₂, h₃, h₄, not_lt.mpr h₄]
    · simp [h₁, h₂, h₃, h₄, not_le.mp h₁, not_le.mp h₂, not_le.mp h₃, not_le.mp h₄]
  · intro h₁
    simp [Arguments.Validate, h₁]
  · intro h₁ h₂
    simp [Arguments.Validate, not_le.mpr h₁, h₂]
  · intro h₁ h₂ h₃
    simp [Arguments.Validate, not_le.mpr h₁, not_le.mpr h₂, h₃]
  · intro h₁ h₂ h₃ h₄
    simp [Arguments.Validate, not_le.mpr h₁, not_le.mpr h₂, not_le.mpr h₃, h₄]
  · intro ω' δ' other e₁ e₂ e₃ e₄
    simp only [Arguments.Validate, e₁, e₂, e₃, e₄]

/-- C11: for every Arguments value, Convert returns a nil error and a config
whose LatencyHistogramBuckets, Dimensions, Store.MaxItems, Store.TTL,
CacheLoop, StoreExpirationLoop, DatabaseNameAttribute and
DatabaseNameAttributes equal the corresponding argument fields, whose
MetricsFlushInterval is a non-nil pointer to args.MetricsFlushInterval (a
pointer to 0 when that value is 0), and whose MetricsExporter is empty. -/
theorem Arguments_Convert_spec {ω δ : Type} (args : Arguments ω δ) :
    args.Convert.2 = none
      ∧ args.Convert.1.LatencyHistogramBuckets = args.LatencyHistogramBuckets
      ∧ args.Convert.1.Dimensions = args.Dimensions
      ∧ args.Convert.1.Store.MaxItems = args.Store.MaxItems
      ∧ args.Convert.1.Store.TTL = args.Store.TTL
      ∧ args.Convert.1.CacheLoop = args.CacheLoop
      ∧ args.Convert.1.StoreExpirationLoop = args.StoreExpirationLoop
      ∧ args.Convert.1.DatabaseNameAttribute = args.DatabaseNameAttribute
      ∧ args.Convert.1.DatabaseNameAttributes = args.DatabaseNameAttributes
      ∧ args.Convert.1.MetricsFlushInterval ≠ none
      ∧ args.Convert.1.MetricsFlushInterval = some args.MetricsFlushInterval
      ∧ ({ args with MetricsFlushInterval := 0 } : Arguments ω δ).Convert.1.MetricsFlushInterval
          = some 0
      ∧ args.Convert.1.MetricsExporter = "" := by
  refine ⟨rfl, rfl, rfl, rfl, rfl, rfl, rfl, rfl, rfl, ?_, rfl, rfl, rfl⟩
  simp [Arguments.Convert]

/-- C12 (the code breaks the claim): after Arguments.SetToDefault, whatever the
value held before and whatever the defaults of the debug metrics block, the
deprecated DatabaseNameAttribute field is the empty string, not "db.name";
the list DatabaseNameAttributes is the one that holds "db.name"; and Convert
hands the empty string on. -/
theorem SetToDefault_DatabaseNameAttribute_empty {ω δ : Type} (zeroDebugMetrics : δ)
    (debugMetricsSetToDefault : δ → δ) (args : Arguments ω δ) :
    (args.SetToDefault zeroDebugMetrics debugMetricsSetToDefault).DatabaseNameAttribute = ""
      ∧ (args.SetToDefault zeroDebugMetrics debugMetricsSetToDefault).DatabaseNameAttribute
          ≠ "db.name"
      ∧ (args.SetToDefault zeroDebugMetrics debugMetricsSetToDefault).DatabaseNameAttributes
          = ["db.name"]
      ∧ (args.SetToDefault zeroDebugMetrics debugMetricsSetToDefault).Convert.1.DatabaseNameAttribute
          = "" := by
  refine ⟨rfl, ?_, rfl, rfl⟩
  show ("" : String) ≠ "db.name"
  decide

end servicegraph

/-- C10: for every QueueArguments value, SetToDefault yields exactly
{Enabled: true, NumConsumers: 10, QueueSize: 1000, Blocking: false}, and for
every StoreConfig value, SetToDefault yields exactly {MaxItems: 1000, TTL: 2s}
(2 000 000 000 ns); applying SetToDefault twice gives the same value as
applying it once. -/
theorem SetToDefault_constant_idempotent (q : QueueArguments) (sc : servicegraph.StoreConfig) :
    q.SetToDefault
        = { Enabled := true, NumConsumers := 10, QueueSize := 1000, Blocking := false }
      ∧ sc.SetToDefault = { MaxItems := 1000, TTL := 2 * servicegraph.Second }
      ∧ sc.SetToDefault.TTL = 2000000000
      ∧ q.SetToDefault.SetToDefault = q.SetToDefault
      ∧ sc.SetToDefault.SetToDefault = sc.SetToDefault :=
  ⟨rfl, rfl,
    by simp [servicegraph.StoreConfig.SetToDefault, servicegraph.Second,
      servicegraph.Millisecond],
    rfl, rfl⟩

end otelcol

end Alloy
